import Mathlib

/-!
Shallow embedding of the global error-handling and notification pipeline of the
repository (Vue 3 + Vite boilerplate).  The definitions below are translated
from the source files:

* `src/src/utils/ERROR-HANDLER__GLOBAL--SYSTEM.js` — the `GlobalErrorHandler`
  class (classification, history, recovery, notification, reporting).
* `src/src/utils/api` — the HTTP client wrapper (`showAlert`, the axios
  response interceptor of `createHttpInstance`).
* `src/unnamed/part_004` — the notification container component
  (`addNotification`, `dismiss`, auto-dismiss timers).

JavaScript machine details that matter here are modelled explicitly:
falsy-string defaulting (`x || d`), `String.prototype.includes` as list-infix
on characters, `Map` as an association list, and ambient browser inputs
(`Date.now()`, `Math.random()`, `window.location.href`, storages) as an
explicit environment / state threaded through the functions.
-/

namespace ErrPipe

/-- Character-list version of "starts with". -/
def startsWithChars : List Char → List Char → Bool
  | [], _ => true
  | _ :: _, [] => false
  | p :: ps, c :: cs => p = c && startsWithChars ps cs

/-- Character-list substring containment. -/
def hasSubChars (pat : List Char) : List Char → Bool
  | [] => pat.isEmpty
  | c :: cs => startsWithChars pat (c :: cs) || hasSubChars pat cs

/-- JavaScript `String.prototype.includes pat` (substring containment). -/
def jsIncludes (s pat : String) : Bool :=
  hasSubChars pat.data s.data

/-- JavaScript `x || d` for strings: `""` is falsy. -/
def jsOrStr (x d : String) : String :=
  if x = "" then d else x

/-- JavaScript `x || d` where `x` may be absent (`undefined`) or falsy-empty. -/
def jsOrOpt (x : Option String) (d : String) : String :=
  match x with
  | some s => jsOrStr s d
  | none => d

/-- A normalized JavaScript `Error`-like object, as produced/consumed by the
handler.  `stack` is optional (a plain string input has no stack).  The three
axios-related fields model the properties inspected by `isAxiosError`
(`error.isAxiosError`, `error.config`, `error.response`/`error.request`);
`isAxiosErrorProp` is the "already handled by the HTTP client" marker flag the
response interceptor sets (`error.isAxiosError = true`). -/
structure JsError where
  name : String
  message : String
  stack : Option String
  isAxiosErrorProp : Bool
  hasConfig : Bool
  hasResponse : Bool
  hasRequest : Bool
  deriving Repr, DecidableEq

/-- A raw failure value reaching the handler: an `Error` instance, a plain
string, a non-Error object (with an optional `message` own-property, a
`toString` rendering and possibly the axios marker properties, which
`normalizeError` copies over), or anything else (null, undefined, numbers…). -/
inductive JsValue where
  | err (e : JsError)
  | str (s : String)
  | obj (message : Option String) (toStringVal : String)
        (isAxiosErrorProp hasConfig hasResponse hasRequest : Bool)
  | other
  deriving Repr, DecidableEq

/-- `normalizeError` (ERROR-HANDLER__GLOBAL--SYSTEM.js, lines 250-274):
Error instances pass through; strings become `new Error(s)`; objects become a
new Error with `message || toString() || 'Unknown error'` and their remaining
own properties copied over; everything else becomes
`Error('Unknown error occurred')`. -/
def normalizeError (v : JsValue) : JsError :=
  match v with
  | .err e => e
  | .str s => ⟨"Error", s, none, false, false, false, false⟩
  | .obj msg ts ax cfg resp req =>
      ⟨"Error", jsOrStr (jsOrOpt msg ts) "Unknown error", none, ax, cfg, resp, req⟩
  | .other => ⟨"Error", "Unknown error occurred", none, false, false, false, false⟩

/-- `isAxiosError` (lines 319-325): duck-typed detection of errors owned by the
HTTP client: `error.isAxiosError || error.config || (error.response && error.request)`. -/
def isAxiosError (e : JsError) : Bool :=
  e.isAxiosErrorProp || e.hasConfig || (e.hasResponse && e.hasRequest)

/-- Whether a raw failure value carries the HTTP-client "already handled"
marker flag (`isAxiosError` own property), before normalization. -/
def carriesHttpClientMarker (v : JsValue) : Bool :=
  match v with
  | .err e => e.isAxiosErrorProp
  | .obj _ _ ax _ _ _ => ax
  | _ => false

/-- `determineSeverity` (lines 279-299): order-sensitive rule list over the
error name and message substrings. -/
def determineSeverity (e : JsError) : String :=
  if e.name = "ChunkLoadError" || jsIncludes e.message "Loading chunk"
      || jsIncludes e.message "Script error" then
    "critical"
  else if e.name = "TypeError" && jsIncludes e.message "Cannot read prop" then
    "high"
  else if e.name = "NetworkError" || jsIncludes e.message "fetch" then
    "medium"
  else
    "medium"

/-- The classified error record built by `createErrorInfo` (lines 226-245). -/
structure ErrorInfo where
  id : String
  timestamp : String
  message : String
  stack : String
  name : String
  type : String
  severity : String
  context : String
  source : String
  url : String
  userAgent : String
  userId : String
  sessionId : String
  buildVersion : String
  originalError : JsError
  deriving Repr, DecidableEq

/-- The `additionalInfo` argument of `createErrorInfo`: spread over the
defaults, so each present field overrides the default. -/
structure AdditionalInfo where
  type : Option String := none
  severity : Option String := none
  context : Option String := none
  source : Option String := none
  deriving Repr, DecidableEq

/-- Ambient browser inputs read (never written) while building a record:
clock (`Date.now()` / `new Date().toISOString()`), the random suffix drawn by
`Math.random().toString(36).substr(2, 9)`, `window.location.href`,
`navigator.userAgent`, the `auth-store` entry of localStorage (read by
`getCurrentUserId`) and `import.meta.env.VITE_APP_VERSION`. -/
structure Env where
  nowMs : Nat
  isoNow : String
  randSuffix : String
  url : String
  userAgent : String
  authUserId : Option String
  buildVersion : Option String
  deriving Repr, DecidableEq

/-- Mutable state owned by (or touched by) the `GlobalErrorHandler` instance:
the lifetime error counter, the bounded history, the retry-budget map
(`retryAttempts : Map`), and the browser sessionStorage `session-id` entry
that `getSessionId` lazily initializes. -/
structure HandlerState where
  errorCount : Nat
  errorHistory : List ErrorInfo
  retryAttempts : List (String × Nat)
  sessionStorage : Option String
  deriving Repr, DecidableEq

/-- Fresh handler right after construction (lines 58-61), with an untouched
sessionStorage. -/
def initialState : HandlerState :=
  { errorCount := 0, errorHistory := [], retryAttempts := [], sessionStorage := none }

/-- `generateErrorId` (line 582): `error-${Date.now()}-${randomSuffix}`. -/
def generateErrorId (env : Env) : String :=
  "error-" ++ toString env.nowMs ++ "-" ++ env.randSuffix

/-- `getCurrentUserId` (lines 586-598): parsed user id from the localStorage
`auth-store` entry, defaulting to `anonymous`. -/
def getCurrentUserId (env : Env) : String :=
  (env.authUserId).getD "anonymous"

/-- Session id minted on first use: `session-${Date.now()}-${randomSuffix}`. -/
def freshSessionId (env : Env) : String :=
  "session-" ++ toString env.nowMs ++ "-" ++ env.randSuffix

/-- `getSessionId` (lines 600-608): returns the stored `session-id`, or mints
one and WRITES it into sessionStorage when absent. -/
def getSessionId (env : Env) (st : HandlerState) : String × HandlerState :=
  match st.sessionStorage with
  | some sid => (sid, st)
  | none =>
      let sid := freshSessionId env
      (sid, { st with sessionStorage := some sid })

/-- `getBuildVersion` (lines 610-612). -/
def getBuildVersion (env : Env) : String :=
  (env.buildVersion).getD "1.0.0"

/-- `createErrorInfo` (lines 226-245): builds the classified record from the
normalized error, the defaults, the ambient environment and the spread
`additionalInfo`; threads the handler/browser state because `getSessionId`
may initialize the session id. -/
def createErrorInfo (env : Env) (st : HandlerState) (e : JsError)
    (addl : AdditionalInfo) : ErrorInfo × HandlerState :=
  let sid := (getSessionId env st).1
  let st1 := (getSessionId env st).2
  ({ id := generateErrorId env
     timestamp := env.isoNow
     message := jsOrStr e.message "Unknown error"
     stack := jsOrOpt e.stack "No stack trace available"
     name := jsOrStr e.name "Error"
     type := (addl.type).getD "unknown_error"
     severity := (addl.severity).getD "medium"
     context := (addl.context).getD "Unknown"
     source := (addl.source).getD "unknown"
     url := env.url
     userAgent := env.userAgent
     userId := getCurrentUserId env
     sessionId := sid
     buildVersion := getBuildVersion env
     originalError := e }, st1)

/-- The handler options (constructor, lines 41-56), with the fields the
pipeline branches on.  `excludeErrors` holds the default string patterns
(the source also accepts RegExp patterns, but the default configuration,
which every claim is about, is string-only). -/
structure Options where
  enableConsoleLogging : Bool
  enableUserNotifications : Bool
  enableErrorReporting : Bool
  enableRecovery : Bool
  maxRetries : Nat
  retryDelay : Nat
  reportingEndpoint : Option String
  excludeErrors : List String
  deriving Repr, DecidableEq

/-- The constructor defaults (lines 42-54). -/
def defaultOptions : Options :=
  { enableConsoleLogging := true
    enableUserNotifications := true
    enableErrorReporting := true
    enableRecovery := true
    maxRetries := 3
    retryDelay := 1000
    reportingEndpoint := some "/api/errors"
    excludeErrors := ["Script error", "Network Error", "ChunkLoadError"] }

/-- `shouldExcludeError` (lines 304-314): some default pattern occurs as a
substring of the record message. -/
def shouldExcludeError (opts : Options) (info : ErrorInfo) : Bool :=
  opts.excludeErrors.any (fun pat => jsIncludes info.message pat)

/-- `addToHistory` (lines 330-337): unshift the record, then truncate to the
newest 50 when the buffer overflows. -/
def addToHistory (hist : List α) (info : α) : List α :=
  if (info :: hist).length > 50 then (info :: hist).take 50 else info :: hist

/-- Association-list update modelling `Map.prototype.set`. -/
def assocSet (k : String) (v : Nat) : List (String × Nat) → List (String × Nat)
  | [] => [(k, v)]
  | (k0, v0) :: rest =>
      if k0 = k then (k, v) :: rest else (k0, v0) :: assocSet k v rest

/-- The correlation key `${errorInfo.type}-${errorInfo.context}` (line 495). -/
def errorKey (info : ErrorInfo) : String :=
  info.type ++ "-" ++ info.context

/-- `attemptRecovery` (lines 494-524): look up the retry count for the key
(`|| 0`); if it reached `maxRetries` do nothing, otherwise bump the count and
schedule the kind-specific recovery via `setTimeout`.  Returns the new state
and whether a recovery action was scheduled. -/
def attemptRecovery (opts : Options) (st : HandlerState) (info : ErrorInfo) :
    HandlerState × Bool :=
  if ((st.retryAttempts).lookup (errorKey info)).getD 0 ≥ opts.maxRetries then
    (st, false)
  else
    ({ st with
        retryAttempts := assocSet (errorKey info)
          ((((st.retryAttempts).lookup (errorKey info)).getD 0) + 1)
          st.retryAttempts },
      true)

/-- Observable steps of the pipeline, in execution order, used to state the
ordering guarantees of `processError` (lines 187-221). -/
inductive Event where
  | classified
  | recorded
  | logged
  | notified
  | reportDispatched
  | recoveryScheduled (armed : Bool)
  | listenersNotified
  deriving Repr, DecidableEq

/-- `processError` (lines 187-221): excluded errors return immediately;
otherwise increment the lifetime counter, append to history, then log, show
the user notification, dispatch the report, attempt recovery, and notify
listeners — in exactly that source order.  Returns the new state and the
ordered list of performed steps. -/
def processError (opts : Options) (st : HandlerState) (info : ErrorInfo) :
    HandlerState × List Event :=
  if shouldExcludeError opts info then
    (st, [])
  else
    let st1 := { st with
      errorCount := st.errorCount + 1
      errorHistory := addToHistory st.errorHistory info }
    let evs1 := [Event.recorded]
    let evs2 := evs1 ++ (if opts.enableConsoleLogging then [Event.logged] else [])
    let evs3 := evs2 ++ (if opts.enableUserNotifications then [Event.notified] else [])
    let evs4 := evs3 ++ (if opts.enableErrorReporting then [Event.reportDispatched] else [])
    let st2 := if opts.enableRecovery then (attemptRecovery opts st1 info).1 else st1
    let evs5 := evs4 ++
      (if opts.enableRecovery then
        [Event.recoveryScheduled (attemptRecovery opts st1 info).2] else [])
    (st2, evs5 ++ [Event.listenersNotified])

/-- A full capture-to-dispatch run for one failure: classification
(`createErrorInfo`, invoked by the boundary handlers before `processError`)
followed by the `processError` pipeline. -/
def handleFailure (env : Env) (opts : Options) (st : HandlerState)
    (e : JsError) (addl : AdditionalInfo) : HandlerState × List Event :=
  let ci := createErrorInfo env st e addl
  let pr := processError opts ci.2 ci.1
  (pr.1, Event.classified :: pr.2)

/-- Outcome of the unhandled-rejection boundary handler: resulting state, the
classified record it produced (if any), the pipeline steps performed, and
whether `event.preventDefault()` was reached. -/
structure RejectionOutcome where
  st : HandlerState
  record : Option ErrorInfo
  events : List Event
  preventedDefault : Bool
  deriving Repr, DecidableEq

/-- `handleUnhandledRejection` (lines 107-126): normalize the rejection
reason; if it is owned by the HTTP client (`isAxiosError`), return
immediately — no record is built, no pipeline step runs and the default
browser behavior is not prevented.  Otherwise classify with the
promise-rejection tags and run `processError`, then prevent default. -/
def handleUnhandledRejection (env : Env) (opts : Options) (st : HandlerState)
    (reason : JsValue) : RejectionOutcome :=
  let e := normalizeError reason
  if isAxiosError e then
    { st := st, record := none, events := [], preventedDefault := false }
  else
    let ci := createErrorInfo env st e
      { type := some "promise_rejection"
        severity := some "high"
        context := some "Unhandled Promise Rejection"
        source := some "window.unhandledrejection" }
    let pr := processError opts ci.2 ci.1
    { st := pr.1, record := some ci.1, events := pr.2, preventedDefault := true }

/-- One step of `typeStats[k] = (typeStats[k] || 0) + 1` on the accumulator
object, modelled as an association list. -/
def bumpCount (m : List (String × Nat)) (k : String) : List (String × Nat) :=
  assocSet k (((m.lookup k).getD 0) + 1) m

/-- The object returned by `getStatistics` (lines 623-639).  The two
breakdowns are built by the source's `forEach` fold over the current history
window. -/
structure Statistics where
  totalErrors : Nat
  recentErrors : Nat
  typeBreakdown : List (String × Nat)
  severityBreakdown : List (String × Nat)
  retryAttempts : List (String × Nat)
  deriving Repr, DecidableEq

/-- `getStatistics` (lines 623-639): `total` is the lifetime counter, the
breakdowns fold the (bounded) `errorHistory` window. -/
def getStatistics (st : HandlerState) : Statistics :=
  { totalErrors := st.errorCount
    recentErrors := st.errorHistory.length
    typeBreakdown := st.errorHistory.foldl (fun m e => bumpCount m e.type) []
    severityBreakdown := st.errorHistory.foldl (fun m e => bumpCount m e.severity) []
    retryAttempts := st.retryAttempts }

/-- `clearHistory` (lines 644-648): empties the history, clears the
retry-budget map and resets the lifetime counter to 0. -/
def clearHistory (st : HandlerState) : HandlerState :=
  { st with errorHistory := [], retryAttempts := [], errorCount := 0 }

/-- `reportError` (lines 461-489), as a function of the outcomes of its two
external effects: the `gtag` call (if `window.gtag` is present) and the
`fetch` to the reporting endpoint (if configured).  Either may fail
(`Except.error`); the body runs them in sequence. -/
def reportErrorBody (gtagPresent : Bool) (gtagOutcome : Except String Unit)
    (endpoint : Option String) (fetchOutcome : Except String Unit) :
    Except String Unit := do
  if gtagPresent then gtagOutcome else pure ()
  match endpoint with
  | some _ => fetchOutcome
  | none => pure ()

/-- The whole of `reportError` is wrapped in `try … catch (reportingError)`
which only logs; the caller therefore always receives a normal return, never
an exception.  The result carries the locally logged messages. -/
def reportError (gtagPresent : Bool) (gtagOutcome : Except String Unit)
    (endpoint : Option String) (fetchOutcome : Except String Unit) :
    Except String (List String) :=
  match reportErrorBody gtagPresent gtagOutcome endpoint fetchOutcome with
  | .ok _ => .ok []
  | .error e => .ok ["Failed to report error: " ++ e]

/-- `n` successive `attemptRecovery` calls for the same record, counting how
many recovery actions were actually scheduled. -/
def recoverRun (opts : Options) (info : ErrorInfo) (st : HandlerState) :
    Nat → HandlerState × Nat
  | 0 => (st, 0)
  | n + 1 =>
      let prev := recoverRun opts info st n
      let step := attemptRecovery opts prev.1 info
      (step.1, prev.2 + if step.2 then 1 else 0)

end ErrPipe

/-!
Model of the HTTP client wrapper (`src/src/utils/api`): the `showAlert`
helper and the success-path response interceptor of `createHttpInstance`.
-/

namespace HttpClient

/-- A notification as displayed by the primary `showAlert` path
(`window.notifications`, lines 365-385): the effective duration after the
default `duration !== undefined ? duration : (type === 'error' ? 0 : 5000)`
is applied (`0` = sticky). -/
structure ShownAlert where
  text : String
  type : String
  title : String
  duration : Nat
  deriving Repr, DecidableEq

/-- `showAlert` (lines 365-385), window.notifications path: computes the
displayed notification with its effective duration. -/
def showAlert (text type title : String) (duration : Option Nat) : ShownAlert :=
  { text := text
    type := type
    title := title
    duration := duration.getD (if type = "error" then 0 else 5000) }

/-- The business payload of a successful HTTP response
(`const { code, message } = response.data`); either field may be absent. -/
structure BizData where
  code : Option Int
  message : Option String
  deriving Repr, DecidableEq

/-- A response reaching the fulfilled response interceptor.  `data` is `none`
when the body is not an object. -/
structure ApiResponse where
  status : Nat
  statusText : String
  data : Option BizData
  deriving Repr, DecidableEq

/-- `HTTP_STATUS_MESSAGES` lookup (lines 425-441) with the
`|| response.statusText` fallback. -/
def httpStatusMessage (status : Nat) (statusText : String) : String :=
  if status = 200 then "Request successful"
  else if status = 201 then "Created successfully"
  else if status = 202 then "Request accepted and queued for processing"
  else if status = 204 then "Deleted successfully"
  else if status = 400 then "Bad request - please check your input"
  else if status = 401 then "Unauthorized - please log in"
  else if status = 403 then "Forbidden - insufficient permissions"
  else if status = 404 then "Resource not found"
  else if status = 406 then "Request format not acceptable"
  else if status = 410 then "Resource permanently deleted"
  else if status = 422 then "Validation error"
  else if status = 500 then "Internal server error"
  else if status = 502 then "Bad gateway"
  else if status = 503 then "Service unavailable"
  else if status = 504 then "Gateway timeout"
  else statusText

instance {ε α : Type} [DecidableEq ε] [DecidableEq α] : DecidableEq (Except ε α)
  | .ok a, .ok b =>
      if h : a = b then .isTrue (by rw [h])
      else .isFalse (fun hh => by cases hh; exact h rfl)
  | .ok _, .error _ => .isFalse (fun hh => by cases hh)
  | .error _, .ok _ => .isFalse (fun hh => by cases hh)
  | .error e, .error f =>
      if h : e = f then .isTrue (by rw [h])
      else .isFalse (fun hh => by cases hh; exact h rfl)

/-- Outcome of the fulfilled response interceptor: the alerts shown, whether
`reLogIn()` was invoked, how many times the global error handler
(`processError`) was called from this branch (the success path never calls
it, so no retry can be scheduled from here), and the settled result of the
call (`.error` = the promise is rejected back to the caller). -/
structure InterceptOutcome where
  alerts : List ShownAlert
  reLogin : Bool
  processErrorCalls : Nat
  result : Except String Unit
  deriving Repr, DecidableEq

/-- The fulfilled response interceptor of `createHttpInstance`
(lines 484-529): non-2xx statuses throw an `HttpError`; a body code of
`10002`/`10004` shows the session-expired warning, forces re-login and
rejects; a body code of `-1` shows an error alert with
`message || 'Operation failed'` (no duration supplied, so `showAlert`
applies the error default `0`) and rejects with that message; otherwise the
response is passed through. -/
def interceptResponse (r : ApiResponse) : InterceptOutcome :=
  if r.status < 200 || r.status ≥ 300 then
    { alerts := [], reLogin := false, processErrorCalls := 0
      result := .error (httpStatusMessage r.status r.statusText) }
  else
    match r.data with
    | some d =>
        if d.code = some 10002 || d.code = some 10004 then
          { alerts := [showAlert "Your session has expired. Please log in again."
                        "warning" "Session Expired" none]
            reLogin := true, processErrorCalls := 0
            result := .error "Authentication expired" }
        else if d.code = some (-1) then
          let msg := ErrPipe.jsOrOpt d.message "Operation failed"
          { alerts := [showAlert msg "error" "Error" none]
            reLogin := false, processErrorCalls := 0
            result := .error msg }
        else
          { alerts := [], reLogin := false, processErrorCalls := 0, result := .ok () }
    | none =>
        { alerts := [], reLogin := false, processErrorCalls := 0, result := .ok () }

end HttpClient

/-!
Model of the notification container component (`src/unnamed/part_004`): the
active notification list, the auto-dismiss timer map, `addNotification`,
`dismiss` and the firing of due timers.
-/

namespace Notif

/-- A notification in the active set, after the defaults
`{type:'info', title:'', message:'', duration:5000, dismissible:true}` are
merged with the caller's fields. -/
structure JsNotification where
  id : Nat
  type : String
  title : String
  message : String
  duration : Nat
  dismissible : Bool
  deriving Repr, DecidableEq

/-- The caller-supplied part of a notification; absent fields take the
component defaults via the object spread. -/
structure NotifInput where
  type : Option String := none
  title : Option String := none
  message : Option String := none
  duration : Option Nat := none
  dismissible : Option Bool := none
  deriving Repr, DecidableEq

/-- Component state: the active notification list (`notifications`) and the
auto-dismiss timer map (`timers`), each timer stored as
(notification id, absolute expiry time). -/
structure NotifState where
  notifications : List JsNotification
  timers : List (Nat × Nat)
  deriving Repr, DecidableEq

/-- State of a freshly mounted component. -/
def emptyNotifState : NotifState := { notifications := [], timers := [] }

/-- The merged notification object built by `addNotification` (part_004,
lines 90-99): the component defaults
`{type:'info', title:'', message:'', duration:5000, dismissible:true}`
spread-overridden by the caller's fields. -/
def mergedNotif (inp : NotifInput) (id : Nat) : JsNotification :=
  { id := id
    type := (inp.type).getD "info"
    title := (inp.title).getD ""
    message := (inp.message).getD ""
    duration := (inp.duration).getD 5000
    dismissible := (inp.dismissible).getD true }

/-- `addNotification` (part_004, lines 88-113): merge the defaults, push the
notification, and arm a `setTimeout(dismiss id, duration)` timer iff
`duration > 0`.  `id` is the generated unique id and `now` the current
clock, both ambient in the source. -/
def addNotification (st : NotifState) (inp : NotifInput) (id : Nat) (now : Nat) :
    NotifState × Nat :=
  let n := mergedNotif inp id
  let st1 := { st with notifications := st.notifications ++ [n] }
  let st2 :=
    if n.duration > 0 then
      { st1 with timers := st1.timers ++ [(id, now + n.duration)] }
    else st1
  (st2, id)

/-- `dismiss` (lines 118-129): if a notification with this id is active,
splice it out and, when a timer exists for the id, clear and delete the
timer; otherwise do nothing. -/
def dismiss (id : Nat) (st : NotifState) : NotifState :=
  if st.notifications.any (fun n => n.id = id) then
    { notifications := st.notifications.eraseP (fun n => n.id = id)
      timers := st.timers.eraseP (fun p => p.1 = id) }
  else st

/-- Whether a notification with this id is in the active set. -/
def isActive (id : Nat) (st : NotifState) : Bool :=
  st.notifications.any (fun n => n.id = id)

/-- The event loop reaching time `t`: every armed timer whose expiry is
`≤ t` fires its callback, which is `dismiss id`. -/
def elapse (t : Nat) (st : NotifState) : NotifState :=
  (st.timers.filter (fun p => p.2 ≤ t)).foldl (fun s p => dismiss p.1 s) st

end Notif


/-!
Shared concrete sample inputs used by witnesses and counterexamples.
-/

namespace ErrPipe

/-- A concrete ambient environment. -/
def sampleEnv : Env :=
  { nowMs := 1700000000000
    isoNow := "2023-11-14T22:13:20.000Z"
    randSuffix := "k3j9d2f1a"
    url := "http://localhost:3000/"
    userAgent := "Mozilla/5.0"
    authUserId := none
    buildVersion := none }

/-- A concrete plain runtime error. -/
def sampleError : JsError :=
  ⟨"Error", "boom", none, false, false, false, false⟩

/-- The record classified from `sampleError` on a fresh handler. -/
def sampleInfo : ErrorInfo :=
  (createErrorInfo sampleEnv initialState sampleError {}).1

/-- A handler state whose browser session id is already initialized. -/
def sessionState : HandlerState :=
  { initialState with sessionStorage := some "session-existing" }

/-- A record whose message contains the default exclusion pattern
`Script error`. -/
def excludedInfo : ErrorInfo :=
  { sampleInfo with message := "Uncaught Script error in handler" }

/-- A rejection reason carrying the HTTP-client "already handled" marker
(`error.isAxiosError = true`, as set by the response interceptor). -/
def axiosReason : JsValue :=
  .err ⟨"AxiosError", "Request failed with status code 500", none, true, true, true, true⟩

/-- The handler state after processing one concrete error on a fresh
handler (lifetime counter = 1). -/
def stOneError : HandlerState :=
  (processError defaultOptions initialState sampleInfo).1

/-- Recognizer for the report-dispatch step. -/
def isReportEv : Event → Bool
  | .reportDispatched => true
  | _ => false

/-- Recognizer for the recovery-scheduling step. -/
def isRecoveryEv : Event → Bool
  | .recoveryScheduled _ => true
  | _ => false

/-- The step trace of one concrete failure through the full default
pipeline. -/
def sampleTrace : List Event :=
  (handleFailure sampleEnv defaultOptions initialState sampleError
    { type := some "javascript_error"
      severity := some "medium"
      context := some "Global JavaScript Error"
      source := some "window.error" }).2

end ErrPipe

namespace HttpClient

/-- A successful HTTP response whose body carries the reserved "operation
failed" code `-1` with message `quota exceeded`. -/
def quotaResponse : ApiResponse :=
  { status := 200
    statusText := "OK"
    data := some { code := some (-1), message := some "quota exceeded" } }

end HttpClient

namespace ErrPipe

/-!
Lemmas about the bounded history buffer.
-/

theorem addToHistory_eq_take {α : Type} (h : List α) (e : α)
    (_hle : h.length ≤ 50) : addToHistory h e = (e :: h).take 50 := by
  unfold addToHistory
  split
  · rfl
  · next hgt =>
      exact (List.take_of_length_le (Nat.le_of_not_lt hgt)).symm

theorem take_append_take_eq {α : Type} (l m : List α) (n : Nat) :
    (l ++ m.take n).take n = (l ++ m).take n := by
  rw [List.take_append_eq_append_take, List.take_append_eq_append_take,
    List.take_take, Nat.min_eq_left (Nat.sub_le n l.length)]

theorem foldl_addToHistory_eq {α : Type} (rs : List α) (acc : List α)
    (hle : acc.length ≤ 50) :
    rs.foldl addToHistory acc = (rs.reverse ++ acc).take 50 := by
  induction rs generalizing acc with
  | nil => simpa using (List.take_of_length_le hle).symm
  | cons e rs ih =>
      rw [List.foldl_cons, addToHistory_eq_take _ _ hle,
        ih ((e :: acc).take 50) (by simp), List.reverse_cons, List.append_assoc]
      simpa using take_append_take_eq rs.reverse (e :: acc) 50

/-- C1: the error history holds at most 50 records in most-recent-first
order: after inserting 51 distinct records via `addToHistory` into an empty
history, the result is exactly the last 50 inserted records newest-first
(the reversed tail of the insertion sequence), its length is 50, and the
oldest record is absent. -/
theorem errorHistory_capacity {α : Type} (rs : List α) (r0 : α)
    (hlen : rs.length = 51) (hnd : rs.Nodup) (hhd : rs.head? = some r0) :
    rs.foldl addToHistory [] = rs.tail.reverse ∧
    (rs.foldl addToHistory []).length = 50 ∧
    r0 ∉ rs.foldl addToHistory [] := by
  cases rs with
  | nil => simp at hhd
  | cons a t =>
      have ha : a = r0 := by simpa using hhd
      subst ha
      have ht : t.length = 50 := by simpa using hlen
      have hfold : (a :: t).foldl addToHistory [] = t.reverse := by
        rw [foldl_addToHistory_eq _ _ (by simp), List.append_nil,
          List.reverse_cons]
        rw [show (50 : Nat) = t.reverse.length from by simp [ht]]
        exact List.take_left t.reverse [a]
      have hmem : a ∉ t := (List.nodup_cons.mp hnd).1
      refine ⟨hfold, ?_, ?_⟩
      · rw [hfold]; simp [ht]
      · rw [hfold]; simpa using hmem

/-- Witness for C1 at the concrete insertion sequence `0, 1, …, 50`. -/
theorem errorHistory_capacity_witness :
    (List.range 51).foldl addToHistory [] = (List.range 51).tail.reverse ∧
    ((List.range 51).foldl addToHistory []).length = 50 ∧
    0 ∉ (List.range 51).foldl addToHistory [] :=
  errorHistory_capacity (List.range 51) 0 (by decide) (by decide) (by decide)

end ErrPipe

/-!
Lemmas about the retry-budget map and the recovery scheduler (claim C2).
-/

namespace ErrPipe

theorem lookup_assocSet_self (k : String) (v : Nat) (m : List (String × Nat)) :
    ((assocSet k v m).lookup k) = some v := by
  induction m with
  | nil => simp [assocSet, List.lookup]
  | cons p rest ih =>
      obtain ⟨k0, v0⟩ := p
      by_cases h : k0 = k
      · simp [assocSet, h, List.lookup]
      · simp only [assocSet, h, if_false, List.lookup]
        have : (k == k0) = false := by
          simp [Ne.symm h]
        simp [this, ih]

theorem recoverRun_count (opts : Options) (info : ErrorInfo) (st : HandlerState)
    (h0 : ((st.retryAttempts).lookup (errorKey info)).getD 0 = 0) (n : Nat) :
    (((recoverRun opts info st n).1.retryAttempts).lookup (errorKey info)).getD 0
        = min n opts.maxRetries ∧
    (recoverRun opts info st n).2 = min n opts.maxRetries := by
  induction n with
  | zero => simpa [recoverRun] using h0
  | succ n ih =>
      obtain ⟨ihl, ihc⟩ := ih
      by_cases hn : opts.maxRetries ≤ n
      · have hmin : min n opts.maxRetries = opts.maxRetries := Nat.min_eq_right hn
        have hmin1 : min (n + 1) opts.maxRetries = opts.maxRetries :=
          Nat.min_eq_right (Nat.le_succ_of_le hn)
        have hstep : attemptRecovery opts (recoverRun opts info st n).1 info
            = ((recoverRun opts info st n).1, false) := by
          unfold attemptRecovery
          rw [ihl, hmin]
          simp
        simp [recoverRun, hstep, ihl, ihc, hmin, hmin1]
      · have hlt : n < opts.maxRetries := Nat.lt_of_not_le hn
        have hmin : min n opts.maxRetries = n := Nat.min_eq_left (Nat.le_of_lt hlt)
        have hmin1 : min (n + 1) opts.maxRetries = n + 1 := Nat.min_eq_left hlt
        have hstep : attemptRecovery opts (recoverRun opts info st n).1 info
            = ({ (recoverRun opts info st n).1 with
                  retryAttempts := assocSet (errorKey info) (n + 1)
                    (recoverRun opts info st n).1.retryAttempts }, true) := by
          unfold attemptRecovery
          rw [ihl, hmin]
          simp [Nat.not_le.mpr hlt]
        simp [recoverRun, hstep, ihc, hmin, hmin1, lookup_assocSet_self]

/-- C2: with the default ceiling (`maxRetries = 3`), a sequence of `n`
`attemptRecovery` calls for the same correlation key, starting from a state
whose budget for that key is untouched, schedules exactly `min n 3` recovery
actions; once the attempt count has reached the ceiling, a further call
schedules nothing and returns the state unchanged, and only the external
reset `clearHistory` clears the budget map. -/
theorem attemptRecovery_ceiling (n : Nat) (info : ErrorInfo) (st : HandlerState)
    (h0 : ((st.retryAttempts).lookup (errorKey info)).getD 0 = 0) :
    (recoverRun defaultOptions info st n).2 = min n 3 ∧
    (3 ≤ n →
      attemptRecovery defaultOptions ((recoverRun defaultOptions info st n).1) info
        = ((recoverRun defaultOptions info st n).1, false)) ∧
    (clearHistory ((recoverRun defaultOptions info st n).1)).retryAttempts = [] := by
  obtain ⟨hl, hc⟩ := recoverRun_count defaultOptions info st h0 n
  refine ⟨by simpa [defaultOptions] using hc, ?_, rfl⟩
  intro hn
  have hmax : defaultOptions.maxRetries = 3 := rfl
  unfold attemptRecovery
  rw [hl, hmax]
  simp [Nat.min_eq_right hn]

/-- Witness for C2: four failures for the same key on a fresh handler
schedule exactly three retries, and the fourth call is a no-op. -/
theorem attemptRecovery_ceiling_witness :
    (recoverRun defaultOptions sampleInfo initialState 4).2 = min 4 3 ∧
    (3 ≤ 4 →
      attemptRecovery defaultOptions
          ((recoverRun defaultOptions sampleInfo initialState 4).1) sampleInfo
        = ((recoverRun defaultOptions sampleInfo initialState 4).1, false)) ∧
    (clearHistory ((recoverRun defaultOptions sampleInfo initialState 4).1)).retryAttempts
      = [] :=
  attemptRecovery_ceiling 4 sampleInfo initialState (by decide)

end ErrPipe

namespace ErrPipe

/-- C8: `reportError` never throws or rejects to its caller, whatever the
outcome of the `gtag` call and of the report `fetch` (including failure of
the report request itself); every internal failure is caught and surfaces
only as a local log entry. -/
theorem reportError_never_throws (gtagPresent : Bool)
    (gtagOutcome : Except String Unit) (endpoint : Option String)
    (fetchOutcome : Except String Unit) :
    ∃ logs, reportError gtagPresent gtagOutcome endpoint fetchOutcome = .ok logs := by
  unfold reportError
  cases h : reportErrorBody gtagPresent gtagOutcome endpoint fetchOutcome with
  | ok u => exact ⟨[], rfl⟩
  | error e => exact ⟨["Failed to report error: " ++ e], rfl⟩



/-- C10: a record whose message contains one of the default exclusion
patterns makes `processError` return with the entire handler state unchanged
and no step performed: no count increment, no history entry, no log, no
notification, no report dispatch, no recovery attempt, no listener call. -/
theorem excluded_error_noop (st : HandlerState) (info : ErrorInfo)
    (h : jsIncludes info.message "Script error" = true ∨
         jsIncludes info.message "Network Error" = true ∨
         jsIncludes info.message "ChunkLoadError" = true) :
    processError defaultOptions st info = (st, []) := by
  have hex : shouldExcludeError defaultOptions info = true := by
    unfold shouldExcludeError defaultOptions
    rcases h with h | h | h <;> simp [h]
  unfold processError
  rw [hex]
  simp

/-- Witness for C10 at a concrete record containing `Script error`. -/
theorem excluded_error_noop_witness :
    processError defaultOptions initialState excludedInfo = (initialState, []) :=
  excluded_error_noop initialState excludedInfo (Or.inl (by decide))

end ErrPipe

namespace ErrPipe



/-- C4 counterexample: on a fresh state (no stored session id), building a
classified record via `createErrorInfo` does NOT leave all program state
unchanged — `getSessionId` writes the freshly minted session id into
sessionStorage, so the claim of a fully side-effect-free transform is false
at this concrete input. -/
theorem createErrorInfo_writes_sessionStorage :
    (createErrorInfo sampleEnv initialState sampleError {}).2 ≠ initialState := by
  decide

/-- C4 amended: building a classified record leaves the error count, the
history, and the retry budgets unchanged; it also leaves browser storage
unchanged whenever a session id is already stored, and its only possible
effect is initializing the `session-id` entry when it is absent.
`normalizeError` and `determineSeverity` are pure functions of their
argument, so the whole classification step has no other effect. -/
theorem createErrorInfo_frame (env : Env) (st : HandlerState) (e : JsError)
    (addl : AdditionalInfo) :
    ((createErrorInfo env st e addl).2.errorCount = st.errorCount ∧
     (createErrorInfo env st e addl).2.errorHistory = st.errorHistory ∧
     (createErrorInfo env st e addl).2.retryAttempts = st.retryAttempts) ∧
    (∀ sid, st.sessionStorage = some sid → (createErrorInfo env st e addl).2 = st) ∧
    (st.sessionStorage = none →
      (createErrorInfo env st e addl).2
        = { st with sessionStorage := some (freshSessionId env) }) := by
  unfold createErrorInfo getSessionId
  cases h : st.sessionStorage <;> simp [h]

/-- Witness for C4 amended: with a stored session id the state is returned
untouched. -/
theorem createErrorInfo_frame_witness :
    (createErrorInfo sampleEnv sessionState sampleError {}).2 = sessionState :=
  (createErrorInfo_frame sampleEnv sessionState sampleError {}).2.1
    "session-existing" (by decide)

end ErrPipe

namespace ErrPipe



/-- C5 counterexample: for a concrete failure carrying the marker flag, the
unhandled-rejection handler produces NO record at all (`record = none`),
refuting the claim that a minimal passthrough record is returned. -/
theorem axios_marker_no_record :
    (handleUnhandledRejection sampleEnv defaultOptions initialState axiosReason).record
      = none := by
  decide

/-- C5 amended: for every failure carrying the HTTP-client marker flag, the
handler detects it and skips processing entirely — it returns early with the
state unchanged, no pipeline step performed, no record produced, and without
preventing the default browser behavior. -/
theorem axios_marker_skips_processing (env : Env) (opts : Options)
    (st : HandlerState) (reason : JsValue)
    (h : carriesHttpClientMarker reason = true) :
    handleUnhandledRejection env opts st reason
      = { st := st, record := none, events := [], preventedDefault := false } := by
  have hax : isAxiosError (normalizeError reason) = true := by
    cases reason with
    | err e =>
        simp only [carriesHttpClientMarker] at h
        simp [normalizeError, isAxiosError, h]
    | str s => simp [carriesHttpClientMarker] at h
    | obj msg ts ax cfg resp req =>
        simp only [carriesHttpClientMarker] at h
        simp [normalizeError, isAxiosError, h]
    | other => simp [carriesHttpClientMarker] at h
  unfold handleUnhandledRejection
  simp only []
  rw [hax]
  simp

/-- Witness for C5 amended at the concrete marked rejection reason. -/
theorem axios_marker_skips_processing_witness :
    handleUnhandledRejection sampleEnv defaultOptions sessionState axiosReason
      = { st := sessionState, record := none, events := [], preventedDefault := false } :=
  axios_marker_skips_processing sampleEnv defaultOptions sessionState axiosReason
    (by decide)

end ErrPipe

namespace HttpClient



/-- C3 counterexample: for the concrete quota-exceeded response, the
interceptor does show an alert with body `quota exceeded`, but its effective
duration is `0` (sticky) — no non-sticky (`duration > 0`) error notification
with that body is shown, refuting the claim as stated. -/
theorem quota_alert_not_nonsticky :
    (interceptResponse quotaResponse).alerts
        = [{ text := "quota exceeded", type := "error", title := "Error", duration := 0 }] ∧
    ¬ ∃ a, a ∈ (interceptResponse quotaResponse).alerts ∧
        a.text = "quota exceeded" ∧ 0 < a.duration := by
  constructor
  · rfl
  · rintro ⟨a, ha, -, hd⟩
    have hal : (interceptResponse quotaResponse).alerts
        = [{ text := "quota exceeded", type := "error", title := "Error", duration := 0 }] := rfl
    rw [hal] at ha
    simp at ha
    rw [ha] at hd
    simp at hd

/-- C3 amended: for every 2xx response whose body carries code `-1` with a
non-empty message, exactly one STICKY (`duration = 0`) error notification
with that message as body is shown, the call is rejected with the message,
`reLogIn` is not triggered, and the global error handler is never invoked
from this branch, so no retry is scheduled. -/
theorem quota_failure_sticky_alert (status : Nat) (stxt m : String)
    (h1 : 200 ≤ status) (h2 : status < 300) (hm : m ≠ "") :
    interceptResponse
        { status := status, statusText := stxt
          data := some { code := some (-1), message := some m } }
      = { alerts := [{ text := m, type := "error", title := "Error", duration := 0 }]
          reLogin := false
          processErrorCalls := 0
          result := .error m } := by
  unfold interceptResponse
  have hcond : (decide (status < 200) || decide (status ≥ 300)) = false := by
    simp only [Bool.or_eq_false_iff, decide_eq_false_iff_not]
    omega
  simp only [hcond]
  simp [showAlert, ErrPipe.jsOrOpt, ErrPipe.jsOrStr, hm]

/-- Witness for C3 amended at status 200 and message `quota exceeded`. -/
theorem quota_failure_sticky_alert_witness :
    interceptResponse
        { status := 200, statusText := "OK"
          data := some { code := some (-1), message := some "quota exceeded" } }
      = { alerts := [ShownAlert.mk "quota exceeded" "error" "Error" 0]
          reLogin := false
          processErrorCalls := 0
          result := .error "quota exceeded" } :=
  quota_failure_sticky_alert 200 "OK" "quota exceeded" (by decide) (by decide) (by decide)

end HttpClient

namespace ErrPipe



/-- C6 counterexample: in the concrete trace both the report dispatch and
the recovery scheduling occur, but the report is dispatched BEFORE recovery
scheduling — refuting the claim that the reporting dispatch happens after
all four steps (classification, history-recording, notification, recovery
scheduling). -/
theorem report_dispatch_before_recovery :
    sampleTrace.findIdx isReportEv < sampleTrace.findIdx isRecoveryEv ∧
    sampleTrace.any isRecoveryEv = true ∧
    sampleTrace.any isReportEv = true := by
  decide

/-- C6 amended: within a single non-excluded failure's handling under the
default options, the synchronous step order is: classification, then
history-recording, then console logging, then notification, then the
reporting dispatch, then recovery scheduling, then listener notification —
i.e. reporting is dispatched after classification, recording and
notification but BEFORE recovery scheduling. -/
theorem pipeline_step_order (env : Env) (st : HandlerState) (e : JsError)
    (addl : AdditionalInfo)
    (h : shouldExcludeError defaultOptions (createErrorInfo env st e addl).1 = false) :
    ∃ armed, (handleFailure env defaultOptions st e addl).2
      = [Event.classified, Event.recorded, Event.logged, Event.notified,
         Event.reportDispatched, Event.recoveryScheduled armed,
         Event.listenersNotified] := by
  refine ⟨(attemptRecovery defaultOptions
      { errorCount := (createErrorInfo env st e addl).2.errorCount + 1
        errorHistory := addToHistory (createErrorInfo env st e addl).2.errorHistory
          (createErrorInfo env st e addl).1
        retryAttempts := (createErrorInfo env st e addl).2.retryAttempts
        sessionStorage := (createErrorInfo env st e addl).2.sessionStorage }
      (createErrorInfo env st e addl).1).2, ?_⟩
  simp only [handleFailure, processError]
  rw [h]
  simp [defaultOptions]

/-- Witness for C6 amended at a concrete non-excluded failure. -/
theorem pipeline_step_order_witness :
    ∃ armed, (handleFailure sampleEnv defaultOptions initialState sampleError {}).2
      = [Event.classified, Event.recorded, Event.logged, Event.notified,
         Event.reportDispatched, Event.recoveryScheduled armed,
         Event.listenersNotified] :=
  pipeline_step_order sampleEnv initialState sampleError {} (by decide)

end ErrPipe

namespace ErrPipe

theorem lookup_assocSet_ne (k k0 : String) (v : Nat) (m : List (String × Nat))
    (h : k ≠ k0) : ((assocSet k0 v m).lookup k) = m.lookup k := by
  have hb : (k == k0) = false := by simp [h]
  induction m with
  | nil => simp [assocSet, List.lookup, hb]
  | cons p rest ih =>
      obtain ⟨k1, v1⟩ := p
      by_cases h1 : k1 = k0
      · subst h1
        simp [assocSet, List.lookup, hb]
      · simp only [assocSet, h1, if_false, List.lookup]
        by_cases h2 : k = k1
        · simp [h2]
        · have hb2 : (k == k1) = false := by simp [h2]
          simp [hb2, ih]

theorem lookup_bumpCount (m : List (String × Nat)) (k k0 : String) :
    (((bumpCount m k0).lookup k).getD 0)
      = if k = k0 then (m.lookup k).getD 0 + 1 else (m.lookup k).getD 0 := by
  by_cases h : k = k0
  · subst h
    simp [bumpCount, lookup_assocSet_self]
  · simp [bumpCount, h, lookup_assocSet_ne k k0 _ m h]

theorem lookup_foldl_bumpCount {β : Type} (f : β → String) (k : String)
    (l : List β) (m : List (String × Nat)) :
    (((l.foldl (fun acc r => bumpCount acc (f r)) m).lookup k).getD 0)
      = ((m.lookup k).getD 0) + (l.filter (fun r => f r == k)).length := by
  induction l generalizing m with
  | nil => simp
  | cons r l ih =>
      rw [List.foldl_cons, ih, lookup_bumpCount]
      by_cases h : f r = k
      · have hb : (f r == k) = true := by simp [h]
        rw [if_pos h.symm]
        simp only [List.filter_cons, hb, if_pos, List.length_cons]
        omega
      · have hb : (f r == k) = false := by simp [h]
        have hne : ¬ (k = f r) := fun hh => h hh.symm
        rw [if_neg hne]
        simp [List.filter_cons, hb]

theorem attemptRecovery_errorCount (opts : Options) (st : HandlerState)
    (info : ErrorInfo) : (attemptRecovery opts st info).1.errorCount = st.errorCount := by
  unfold attemptRecovery
  split <;> rfl



/-- C7 counterexample: `clearHistory` resets `errorCount` to 0, so the
`total` reported by `getStatistics` strictly DECREASES across `clearHistory`
— refuting the claim that no operation of the handler ever decreases it. -/
theorem clearHistory_resets_total :
    (getStatistics (clearHistory stOneError)).totalErrors
      < (getStatistics stOneError).totalErrors := by
  decide

/-- C7 amended: the `total` of the statistics is the lifetime counter and is
never decreased by recording (`processError`), including recording past the
50-entry capacity; the `byKind`/`bySeverity` breakdowns are computed by
folding only the current bounded window (each bucket equals the count of
matching records in `errorHistory`); `clearHistory`, however, resets the
total to 0. -/
theorem statistics_window_and_total (opts : Options) (st : HandlerState)
    (info : ErrorInfo) (k : String) :
    st.errorCount ≤ (processError opts st info).1.errorCount ∧
    (((getStatistics st).typeBreakdown).lookup k).getD 0
      = (st.errorHistory.filter (fun r => r.type == k)).length ∧
    (((getStatistics st).severityBreakdown).lookup k).getD 0
      = (st.errorHistory.filter (fun r => r.severity == k)).length ∧
    (clearHistory st).errorCount = 0 := by
  refine ⟨?_, ?_, ?_, rfl⟩
  · unfold processError
    split
    · exact Nat.le_refl _
    · by_cases hr : opts.enableRecovery
      · simp only [hr, if_pos]
        rw [attemptRecovery_errorCount]
        exact Nat.le_succ _
      · simp only [hr, if_false]
        exact Nat.le_succ _
  · simpa [getStatistics] using
      lookup_foldl_bumpCount (fun r : ErrorInfo => r.type) k st.errorHistory []
  · simpa [getStatistics] using
      lookup_foldl_bumpCount (fun r : ErrorInfo => r.severity) k st.errorHistory []

end ErrPipe

namespace Notif

/-- C9: for a notification added to a fresh container (generated id 1, at
clock 0) whose merged duration is `d`: if `d > 0`, a timer expiring at `d`
is armed and the notification is active; once the clock passes `d` the timer
fires and the notification leaves the active set with no timer left; if it
is manually dismissed first, both the notification and its timer are removed
(the timer is cancelled), and any later timer processing is a no-op — no
second dismissal and no dangling callback.  If `d = 0`, no timer is armed
and the notification stays active through any passage of time until it is
explicitly dismissed. -/
theorem notification_timer_lifecycle (inp : NotifInput) (d t : Nat)
    (hd : (inp.duration).getD 5000 = d) :
    (0 < d →
      ((1, d) ∈ ((addNotification emptyNotifState inp 1 0).1).timers ∧
       isActive 1 ((addNotification emptyNotifState inp 1 0).1) = true ∧
       (d ≤ t →
         isActive 1 (elapse t ((addNotification emptyNotifState inp 1 0).1)) = false ∧
         (elapse t ((addNotification emptyNotifState inp 1 0).1)).timers = []) ∧
       (dismiss 1 ((addNotification emptyNotifState inp 1 0).1)).timers = [] ∧
       isActive 1 (dismiss 1 ((addNotification emptyNotifState inp 1 0).1)) = false ∧
       elapse t (dismiss 1 ((addNotification emptyNotifState inp 1 0).1))
         = dismiss 1 ((addNotification emptyNotifState inp 1 0).1))) ∧
    (d = 0 →
      (((addNotification emptyNotifState inp 1 0).1).timers = [] ∧
       isActive 1 (elapse t ((addNotification emptyNotifState inp 1 0).1)) = true ∧
       isActive 1 (dismiss 1 ((addNotification emptyNotifState inp 1 0).1)) = false)) := by
  have hdur : (mergedNotif inp 1).duration = (inp.duration).getD 5000 := rfl
  subst hd
  constructor
  · intro hpos
    have hst : (addNotification emptyNotifState inp 1 0).1
        = { notifications := [mergedNotif inp 1]
            timers := [(1, (inp.duration).getD 5000)] } := by
      unfold addNotification
      simp only []
      rw [hdur]
      simp [emptyNotifState, hpos]
    have hdis : dismiss 1 ((addNotification emptyNotifState inp 1 0).1)
        = { notifications := [], timers := [] } := by
      rw [hst]
      simp [dismiss, mergedNotif, List.eraseP]
    refine ⟨?_, ?_, ?_, ?_, ?_, ?_⟩
    · rw [hst]; simp
    · rw [hst]; simp [isActive, mergedNotif]
    · intro hle
      have hel : elapse t ((addNotification emptyNotifState inp 1 0).1)
          = { notifications := [], timers := [] } := by
        conv in elapse t _ => rw [hst]
        unfold elapse
        simp only [List.filter]
        rw [show (decide ((1, (inp.duration).getD 5000).2 ≤ t)) = true by
          simpa using hle]
        simp only [List.foldl_cons, List.foldl_nil]
        rw [← hst, hdis]
      rw [hel]
      exact ⟨rfl, rfl⟩
    · rw [hdis]
    · rw [hdis]; simp [isActive]
    · rw [hdis]; simp [elapse]
  · intro h0
    have hst : (addNotification emptyNotifState inp 1 0).1
        = { notifications := [mergedNotif inp 1], timers := [] } := by
      unfold addNotification
      simp only []
      rw [hdur]
      simp [emptyNotifState, h0]
    refine ⟨?_, ?_, ?_⟩
    · rw [hst]
    · rw [hst]; simp [elapse, isActive, mergedNotif]
    · rw [hst]; simp [dismiss, isActive, mergedNotif, List.eraseP]

/-- Witness for C9 at a notification with duration 3000, observed at clock
3000 (positive-duration branch). -/
theorem notification_timer_lifecycle_witness :
    (1, 3000) ∈ ((addNotification emptyNotifState { duration := some 3000 } 1 0).1).timers ∧
    isActive 1 ((addNotification emptyNotifState { duration := some 3000 } 1 0).1) = true ∧
    (3000 ≤ 3000 →
      isActive 1 (elapse 3000 ((addNotification emptyNotifState
        { duration := some 3000 } 1 0).1)) = false ∧
      (elapse 3000 ((addNotification emptyNotifState
        { duration := some 3000 } 1 0).1)).timers = []) ∧
    (dismiss 1 ((addNotification emptyNotifState
      { duration := some 3000 } 1 0).1)).timers = [] ∧
    isActive 1 (dismiss 1 ((addNotification emptyNotifState
      { duration := some 3000 } 1 0).1)) = false ∧
    elapse 3000 (dismiss 1 ((addNotification emptyNotifState
      { duration := some 3000 } 1 0).1))
      = dismiss 1 ((addNotification emptyNotifState
        { duration := some 3000 } 1 0).1) :=
  (notification_timer_lifecycle { duration := some 3000 } 3000 3000 rfl).1 (by decide)

end Notif
